import Mathlib

/-!
Verification of the focus/time-tracking and blur-decision controller of the
`drunkscrolling` browser extension (source: `src/background.js`).

The controller is a single-threaded, event-driven object
(`FocusBlockerBackground`).  We embed its mutable fields as a `BgState`
record and each method as a pure state-transforming function.  Wall-clock
reads (`Date.now()`) and calendar-day reads (`new Date().toDateString()`)
become explicit `now`/`today` arguments; browser timers (`setInterval`,
`setTimeout`, `clearInterval`) become explicit timer bookkeeping in the
state; asynchronous message delivery to a tab's content script becomes a
`SendOutcome` parameter (success, or the rejection's error string), and the
messages actually delivered are returned alongside the new state.
JavaScript `Map`s become association lists with `Map.set` insertion
semantics.
-/

namespace FocusBlocker

/-- Lookup in an association list, mirroring JavaScript `Map.get`. -/
def mapLookup [DecidableEq α] : List (α × β) → α → Option β
| [], _ => none
| (k', v) :: rest, k => if k' = k then some v else mapLookup rest k

/-- Insert/overwrite in an association list, mirroring `Map.set`
(replaces in place when the key exists, appends otherwise). -/
def mapInsert [DecidableEq α] : List (α × β) → α → β → List (α × β)
| [], k, v => [(k, v)]
| (k', v') :: rest, k, v =>
  if k' = k then (k, v) :: rest else (k', v') :: mapInsert rest k v

/-- Remove a key, mirroring `Map.delete`. -/
def mapErase [DecidableEq α] (m : List (α × β)) (k : α) : List (α × β) :=
  m.filter (fun p => decide (p.1 ≠ k))

/-- JavaScript `String.prototype.includes`: `pat` occurs contiguously in `s`. -/
def strContains (s pat : String) : Bool :=
  (List.range (s.data.length + 1)).any (fun i => pat.data.isPrefixOf (s.data.drop i))

/-- The error-message fragment that `handleSendMessageError` matches to detect
a tab with no attached content script (`background.js` line 163). -/
def receivingEndMsg : String := "Receiving end does not exist"

/-- The fallback blur intensity `'5px'` used wherever the config is absent
or its `blurIntensity` is falsy. -/
def defaultIntensity : String := "5px"

/-- JavaScript `a || d` for an optionally-present string (both `undefined`
and the empty string are falsy). -/
def jsOrString (v : Option String) (d : String) : String :=
  match v with
  | some x => if x = "" then d else x
  | none => d

/-- JavaScript `a || d` for an optionally-present number (both `undefined`
and `0` are falsy). -/
def jsOrNat (v : Option Nat) (d : Nat) : Nat :=
  match v with
  | some x => if x = 0 then d else x
  | none => d

/-- The configuration fields read by the controller
(`config.json` / `setDefaultConfig`). -/
structure Config where
  blurrableSites : List String
  timeoutSeconds : Nat
  blurIntensity : String
  checkIntervalMs : Nat
  deriving DecidableEq

/-- One entry of `this.siteTimeTrackers`: per-site cumulative time plus the
day stamp of the last daily reset (`toDateString()` modelled as a `Nat`). -/
structure SiteTimeTracker where
  totalElapsedTime : Nat
  lastResetDate : Nat
  deriving DecidableEq

/-- One entry of `this.activeSessions`: the site being timed and the
`Date.now()` at which the session started. -/
structure SessionInfo where
  siteKey : String
  startTime : Nat
  deriving DecidableEq

/-- Result of the browser parsing a page address: `invalid` when the `URL`
constructor throws, otherwise the parsed hostname. -/
inductive Address where
  | invalid
  | valid (hostname : String)
  deriving DecidableEq

/-- The fields of a browser tab object that the controller reads.  `url` is
`none` when the tab has no url property. -/
structure TabInfo where
  id : Nat
  url : Option Address
  active : Bool
  deriving DecidableEq

/-- A command sent to a tab's content script (the `message.action` payload,
plus the extra fields `applyBlur` carries). -/
inductive TabMessage where
  | applyBlur (blurIntensity : String) (siteKey : String)
  | removeBlur
  deriving DecidableEq

/-- Outcome of `chrome.tabs.sendMessage`: fulfilled, or rejected with an
error message string. -/
inductive SendOutcome where
  | ok
  | error (msg : String)
  deriving DecidableEq

/-- The record returned by `getTimeInfoForSite`. -/
structure TimeInfo where
  totalTime : Nat
  timeoutMs : Nat
  shouldBeBlurred : Bool
  dailyTime : Nat
  deriving DecidableEq

/-- The response sent by `handleGetTimeStatus`. -/
structure TimeStatusResponse where
  totalTime : Nat
  timeoutMs : Nat
  shouldBeBlurred : Bool
  blurIntensity : String
  siteKey : Option String
  deriving DecidableEq

/-- The mutable fields of `FocusBlockerBackground`.  `checkInterval` is the
handle stored by `setInterval`; `liveTimers` is the set of interval timers
the browser is actually running (a `clearInterval` removes the cleared
handle) and `nextTimerId` generates fresh handles, so that leaked duplicate
tickers would be observable.  `waterBreakTimers` records the fire times of
the `setTimeout(…, 5000)` callbacks scheduled by `handleRequestWaterBreak`
that have not fired yet. -/
structure BgState where
  config : Option Config
  siteTimeTrackers : List (String × SiteTimeTracker)
  activeSessions : List (Nat × SessionInfo)
  messageQueue : List (Nat × List TabMessage)
  activeTabId : Option Nat
  tabBlurStates : List (Nat × Bool)
  waterBreakEndTime : Option Nat
  waterBreakTimers : List Nat
  checkInterval : Option Nat
  liveTimers : List Nat
  nextTimerId : Nat
  deriving DecidableEq

/-- The state set up by the constructor (config is `some` once loaded,
`none` if not yet / failed before defaults). -/
def initState (cfg : Option Config) : BgState :=
  { config := cfg
    siteTimeTrackers := []
    activeSessions := []
    messageQueue := []
    activeTabId := none
    tabBlurStates := []
    waterBreakEndTime := none
    waterBreakTimers := []
    checkInterval := none
    liveTimers := []
    nextTimerId := 0 }

/-- JavaScript `hostname.split('.')` on the character list of the hostname. -/
def splitOnDot : List Char → List (List Char)
| [] => [[]]
| c :: rest =>
  if c = '.' then [] :: splitOnDot rest
  else
    match splitOnDot rest with
    | [] => [[c]]
    | g :: gs => (c :: g) :: gs

/-- JavaScript `parts.join('.')`. -/
def joinDots : List (List Char) → List Char
| [] => []
| [g] => g
| g :: g' :: gs => g ++ '.' :: joinDots (g' :: gs)

/-- `getSiteKey(url)` (`background.js` 64-79): `null`/unparseable address
gives `null`; a hostname with at least two dot-separated labels gives the
last two labels joined by a dot; otherwise the full hostname. -/
def getSiteKey (url : Option Address) : Option String :=
  match url with
  | none => none
  | some Address.invalid => none
  | some (Address.valid hostname) =>
    let parts := splitOnDot hostname.data
    if 2 ≤ parts.length then
      some (String.mk (joinDots (parts.drop (parts.length - 2))))
    else
      some hostname

/-- `getSiteTimeTracker(siteKey)` (`background.js` 81-101): lazily creates
`{0, today}` when absent, then zeroes the total and stamps today when the
stored day differs from today.  Returns the tracker together with the
updated map (the JavaScript mutates the stored object in place). -/
def getSiteTimeTracker (m : List (String × SiteTimeTracker)) (siteKey : Option String)
    (today : Nat) : Option SiteTimeTracker × List (String × SiteTimeTracker) :=
  match siteKey with
  | none => (none, m)
  | some k =>
    let t0 := match mapLookup m k with
      | some t => t
      | none => { totalElapsedTime := 0, lastResetDate := today }
    let t1 := if t0.lastResetDate ≠ today
      then { totalElapsedTime := 0, lastResetDate := today }
      else t0
    (some t1, mapInsert m k t1)

/-- `isTargetSite(url)` (`background.js` 103-112): substring match in both
directions between the site key and each configured blurrable site. -/
def isTargetSite (config : Option Config) (url : Option Address) : Bool :=
  match url, config with
  | none, _ => false
  | _, none => false
  | some u, some cfg =>
    match getSiteKey (some u) with
    | none => false
    | some siteKey =>
      cfg.blurrableSites.any (fun site =>
        strContains siteKey site || strContains site siteKey)

/-- `getTimeoutMs()` (`background.js` 114-116). -/
def getTimeoutMs (config : Option Config) : Nat :=
  (jsOrNat (config.map Config.timeoutSeconds) 30) * 1000

/-- `isWaterBreakActive()` (`background.js` 137-139). -/
def isWaterBreakActive (s : BgState) (now : Nat) : Bool :=
  match s.waterBreakEndTime with
  | some endTime => decide (now < endTime)
  | none => false

/-- `isTabBlurred(tabId)` (`background.js` 141-143). -/
def isTabBlurred (s : BgState) (tabId : Nat) : Bool :=
  decide (mapLookup s.tabBlurStates tabId = some true)

/-- `getTimeInfoForSite(siteKey)` (`background.js` 118-135).  Returns the
time info (or `null` for a `null` site key) and the state updated by
`getSiteTimeTracker`'s lazy creation / daily reset. -/
def getTimeInfoForSite (s : BgState) (siteKey : Option String) (now today : Nat) :
    Option TimeInfo × BgState :=
  let r := getSiteTimeTracker s.siteTimeTrackers siteKey today
  let s' := { s with siteTimeTrackers := r.2 }
  match r.1 with
  | none => (none, s')
  | some tracker =>
    let sessionInfo := match s.activeTabId with
      | some t => mapLookup s.activeSessions t
      | none => none
    let sessionElapsed := match sessionInfo with
      | some info => if some info.siteKey = siteKey then now - info.startTime else 0
      | none => 0
    let combinedTime := tracker.totalElapsedTime + sessionElapsed
    let timeoutMs := getTimeoutMs s.config
    (some { totalTime := combinedTime
            timeoutMs := timeoutMs
            shouldBeBlurred := decide (timeoutMs ≤ combinedTime) && !(isWaterBreakActive s now)
            dailyTime := tracker.totalElapsedTime }, s')

/-- `updateBlurState(tabId, action)` (`background.js` 154-160), recording a
successfully delivered command in the per-tab blur cache. -/
def updateBlurState (s : BgState) (tabId : Nat) (m : TabMessage) : BgState :=
  match m with
  | TabMessage.applyBlur _ _ => { s with tabBlurStates := mapInsert s.tabBlurStates tabId true }
  | TabMessage.removeBlur => { s with tabBlurStates := mapInsert s.tabBlurStates tabId false }

/-- `handleSendMessageError(error, tabId, message)` (`background.js`
162-172): when the error message contains the "no receiver" fragment the
command is appended to the tab's queue (creating the queue if absent);
any other error is only logged. -/
def handleSendMessageError (s : BgState) (errMsg : String) (tabId : Nat)
    (m : TabMessage) : BgState :=
  if strContains errMsg receivingEndMsg then
    let q := match mapLookup s.messageQueue tabId with
      | some q => q
      | none => []
    { s with messageQueue := mapInsert s.messageQueue tabId (q ++ [m]) }
  else
    s

/-- `sendMessageToTab(tabId, message)` (`background.js` 145-152): on
fulfilment the blur cache is updated and the message counts as delivered;
on rejection `handleSendMessageError` runs.  Returns the new state and the
list of `(tabId, message)` pairs actually delivered to a renderer. -/
def sendMessageToTab (s : BgState) (tabId : Nat) (m : TabMessage)
    (outcome : SendOutcome) : BgState × List (Nat × TabMessage) :=
  match outcome with
  | SendOutcome.ok => (updateBlurState s tabId m, [(tabId, m)])
  | SendOutcome.error e => (handleSendMessageError s e tabId m, [])

/-- `processQueuedMessages(tabId, port)` (`background.js` 262-269), run on a
content script's connect event: posts every queued message in order over
the port and deletes the queue (when it is non-empty).  Returns the new
state and the messages posted. -/
def processQueuedMessages (s : BgState) (tabId : Nat) : BgState × List TabMessage :=
  match mapLookup s.messageQueue tabId with
  | some q =>
    if 0 < q.length then
      ({ s with messageQueue := mapErase s.messageQueue tabId }, q)
    else
      (s, [])
  | none => (s, [])

/-- `startHeartbeat()` (`background.js` 174-181): an existing interval is
cleared first, then a fresh interval timer is created and its handle
stored. -/
def startHeartbeat (s : BgState) : BgState :=
  let s1 := match s.checkInterval with
    | some h => { s with liveTimers := s.liveTimers.filter (fun x => decide (x ≠ h)),
                         checkInterval := none }
    | none => s
  { s1 with checkInterval := some s1.nextTimerId
            liveTimers := s1.liveTimers ++ [s1.nextTimerId]
            nextTimerId := s1.nextTimerId + 1 }

/-- `stopHeartbeat()` (`background.js` 193-199): clears the interval when
one is stored, otherwise does nothing. -/
def stopHeartbeat (s : BgState) : BgState :=
  match s.checkInterval with
  | some h => { s with liveTimers := s.liveTimers.filter (fun x => decide (x ≠ h)),
                       checkInterval := none }
  | none => s

/-- `handleShouldBeBlurred(tab, siteKey)` (`background.js` 227-236): sends
`applyBlur` only when the cached blur state says the tab is not blurred. -/
def handleShouldBeBlurred (s : BgState) (tabId : Nat) (siteKey : String)
    (outcome : SendOutcome) : BgState × List (Nat × TabMessage) :=
  if isTabBlurred s tabId then
    (s, [])
  else
    sendMessageToTab s tabId
      (TabMessage.applyBlur (jsOrString (s.config.map Config.blurIntensity) defaultIntensity)
        siteKey) outcome

/-- `handleShouldNotBeBlurred(tab, siteKey)` (`background.js` 238-243):
sends `removeBlur` only when the cached blur state says the tab is
blurred. -/
def handleShouldNotBeBlurred (s : BgState) (tabId : Nat)
    (outcome : SendOutcome) : BgState × List (Nat × TabMessage) :=
  if isTabBlurred s tabId then
    sendMessageToTab s tabId TabMessage.removeBlur outcome
  else
    (s, [])

/-- The verdict dispatch at the end of `checkTabAndApplyBlur`
(`background.js` 220-224). -/
def dispatchVerdict (s : BgState) (tabId : Nat) (siteKey : String) (verdict : Bool)
    (outcome : SendOutcome) : BgState × List (Nat × TabMessage) :=
  if verdict then handleShouldBeBlurred s tabId siteKey outcome
  else handleShouldNotBeBlurred s tabId outcome

/-- `checkTabAndApplyBlur(tab)` (`background.js` 201-225). -/
def checkTabAndApplyBlur (s : BgState) (tab : TabInfo) (now today : Nat)
    (outcome : SendOutcome) : BgState × List (Nat × TabMessage) :=
  if !tab.active || !(isTargetSite s.config tab.url) then (s, [])
  else
    match getSiteKey tab.url with
    | none => (s, [])
    | some siteKey =>
      if isWaterBreakActive s now then
        if isTabBlurred s tab.id then
          sendMessageToTab s tab.id TabMessage.removeBlur outcome
        else (s, [])
      else
        let r := getTimeInfoForSite s (some siteKey) now today
        match r.1 with
        | none => (r.2, [])
        | some timeInfo => dispatchVerdict r.2 tab.id siteKey timeInfo.shouldBeBlurred outcome

/-- `startNewSession(tabId, siteKey)` (`background.js` 332-351).  The
100 ms-delayed `checkTabAndApplyBlur` is an asynchronous delivery-side
re-check and is modelled, like the heartbeat tick's own body, as a later
`checkTabAndApplyBlur` call; it touches none of the session/heartbeat
fields this function establishes. -/
def startNewSession (s : BgState) (tabId : Nat) (siteKey : Option String)
    (now today : Nat) : BgState :=
  let r := getSiteTimeTracker s.siteTimeTrackers siteKey today
  match r.1, siteKey with
  | some _, some k =>
    startHeartbeat
      { s with siteTimeTrackers := r.2
               activeSessions := mapInsert s.activeSessions tabId
                 { siteKey := k, startTime := now } }
  | _, _ => { s with siteTimeTrackers := r.2 }

/-- `endActiveSession(tabId)` (`background.js` 353-367): folds the session's
elapsed time into the site's tracker (after the tracker's daily-reset
check), removes the session and stops the heartbeat. -/
def endActiveSession (s : BgState) (tabId : Nat) (now today : Nat) : BgState :=
  match mapLookup s.activeSessions tabId with
  | none => s
  | some sessionInfo =>
    let r := getSiteTimeTracker s.siteTimeTrackers (some sessionInfo.siteKey) today
    let m' := match r.1 with
      | some tracker =>
        mapInsert r.2 sessionInfo.siteKey
          { tracker with
              totalElapsedTime := tracker.totalElapsedTime + (now - sessionInfo.startTime) }
      | none => r.2
    stopHeartbeat
      { s with siteTimeTrackers := m'
               activeSessions := mapErase s.activeSessions tabId }

/-- `handleTabChange(tab)` (`background.js` 310-330).  Note that
`wasActive` is computed from `this.activeTabId` as it stands when this
method runs, and `endActiveSession` is likewise called on
`this.activeTabId`. -/
def handleTabChange (s : BgState) (tab : TabInfo) (now today : Nat) : BgState :=
  let siteKey := getSiteKey tab.url
  let isTarget := isTargetSite s.config tab.url
  let s1 := match s.activeTabId with
    | some t =>
      if (mapLookup s.activeSessions t).isSome then endActiveSession s t now today else s
    | none => s
  if isTarget && tab.active then startNewSession s1 tab.id siteKey now today else s1

/-- `handleTabActivated(activeInfo)` (`background.js` 271-276):
`this.activeTabId` is overwritten with the newly activated tab id *before*
`handleTabChange` runs. -/
def handleTabActivated (s : BgState) (tab : TabInfo) (now today : Nat) : BgState :=
  handleTabChange { s with activeTabId := some tab.id } tab now today

/-- `handleTabUpdated(tabId, changeInfo, tab)` (`background.js` 278-292). -/
def handleTabUpdated (s : BgState) (tab : TabInfo) (urlChanged statusComplete : Bool)
    (now today : Nat) : BgState :=
  if urlChanged || statusComplete then
    let s1 := { s with tabBlurStates := mapErase s.tabBlurStates tab.id }
    let s2 := if (mapLookup s1.activeSessions tab.id).isSome
      then endActiveSession s1 tab.id now today else s1
    if s2.activeTabId = some tab.id then handleTabChange s2 tab now today else s2
  else s

/-- `handleNoWindowFocused()` (`background.js` 369-375). -/
def handleNoWindowFocused (s : BgState) (now today : Nat) : BgState :=
  match s.activeTabId with
  | some t => endActiveSession s t now today
  | none => s

/-- `handleWindowFocusChanged(windowId)` for a real window gaining focus
(`background.js` 294-308): `found` is the active tab the
`chrome.tabs.query` callback reports for that window, if any.  As in
`handleTabActivated`, `this.activeTabId` is overwritten before
`handleTabChange` runs. -/
def handleWindowFocusGained (s : BgState) (found : Option TabInfo)
    (now today : Nat) : BgState :=
  match found with
  | some tab => handleTabChange { s with activeTabId := some tab.id } tab now today
  | none => s

/-- `handleReportBlurState(message, sender, sendResponse)` (`background.js`
434-440): records the renderer's self-reported blur state in the per-tab
cache when the sender has a tab. -/
def handleReportBlurState (s : BgState) (senderTabId : Option Nat)
    (isBlurred : Bool) : BgState :=
  match senderTabId with
  | some tabId => { s with tabBlurStates := mapInsert s.tabBlurStates tabId isBlurred }
  | none => s

/-- `handleGetTimeStatus(sender, sendResponse)` (`background.js` 408-432).
`senderTab` is `none` when the sender has no tab, `some none` when the tab
has no url, `some (some a)` otherwise.  Always produces exactly one
response. -/
def handleGetTimeStatus (s : BgState) (senderTab : Option (Option Address))
    (now today : Nat) : TimeStatusResponse × BgState :=
  let defaultResp : TimeStatusResponse :=
    { totalTime := 0
      timeoutMs := getTimeoutMs s.config
      shouldBeBlurred := false
      blurIntensity := jsOrString (s.config.map Config.blurIntensity) defaultIntensity
      siteKey := none }
  match senderTab with
  | some (some a) =>
    match getSiteKey (some a) with
    | some siteKey =>
      let r := getTimeInfoForSite s (some siteKey) now today
      match r.1 with
      | some timeInfo =>
        ({ totalTime := timeInfo.totalTime
           timeoutMs := timeInfo.timeoutMs
           shouldBeBlurred := timeInfo.shouldBeBlurred
           blurIntensity := jsOrString (s.config.map Config.blurIntensity) defaultIntensity
           siteKey := some siteKey }, r.2)
      | none => (defaultResp, r.2)
    | none => (defaultResp, s)
  | _ => (defaultResp, s)

/-- `handleRequestWaterBreak` (`background.js` 449-475), state and sweep
part: the override end time is set to `now + 5000`, an expiry `setTimeout`
is scheduled for `now + 5000`, and `removeBlur` is sent to every tab the
`chrome.tabs.query({})` callback reports as currently flagged blurred.
`tabs` pairs each queried tab id with its send outcome. -/
def handleRequestWaterBreak (s : BgState) (now : Nat)
    (tabs : List (Nat × SendOutcome)) : BgState × List (Nat × TabMessage) :=
  let s1 := { s with waterBreakEndTime := some (now + 5000)
                     waterBreakTimers := s.waterBreakTimers ++ [now + 5000] }
  tabs.foldl
    (fun acc p =>
      if isTabBlurred acc.1 p.1 then
        let r := sendMessageToTab acc.1 p.1 TabMessage.removeBlur p.2
        (r.1, acc.2 ++ r.2)
      else acc)
    (s1, [])

/-- The expiry `setTimeout` callback scheduled by `handleRequestWaterBreak`
(`background.js` 463-474): it unconditionally sets `waterBreakEndTime` to
`null` and re-checks every queried target-site tab.  `t` is the fire time
of the pending timer that fires (the guard discards a fire with no pending
timer). -/
def fireWaterBreakExpiry (s : BgState) (t : Nat)
    (tabs : List (TabInfo × SendOutcome)) (now today : Nat) :
    BgState × List (Nat × TabMessage) :=
  if s.waterBreakTimers.contains t then
    let s1 := { s with waterBreakTimers := s.waterBreakTimers.erase t
                       waterBreakEndTime := none }
    tabs.foldl
      (fun acc p =>
        if p.1.url.isSome && isTargetSite acc.1.config p.1.url then
          let r := checkTabAndApplyBlur acc.1 p.1 now today p.2
          (r.1, acc.2 ++ r.2)
        else acc)
      (s1, [])
  else (s, [])

/-- The browser-event alphabet driving the controller. -/
inductive Event where
  | tabActivated (tab : TabInfo) (now today : Nat)
  | tabUpdated (tab : TabInfo) (urlChanged statusComplete : Bool) (now today : Nat)
  | windowFocusNone (now today : Nat)
  | windowFocusGained (found : Option TabInfo) (now today : Nat)
  | waterBreakRequested (now : Nat) (tabs : List (Nat × SendOutcome))
  | waterBreakExpiry (t : Nat) (tabs : List (TabInfo × SendOutcome)) (now today : Nat)
  | blurReported (senderTabId : Option Nat) (isBlurred : Bool)
  deriving DecidableEq

/-- One controller step: the handler `setupEventListeners` registers for
the event. -/
def bgStep (s : BgState) (e : Event) : BgState :=
  match e with
  | Event.tabActivated tab now today => handleTabActivated s tab now today
  | Event.tabUpdated tab urlChanged statusComplete now today =>
    handleTabUpdated s tab urlChanged statusComplete now today
  | Event.windowFocusNone now today => handleNoWindowFocused s now today
  | Event.windowFocusGained found now today => handleWindowFocusGained s found now today
  | Event.waterBreakRequested now tabs => (handleRequestWaterBreak s now tabs).1
  | Event.waterBreakExpiry t tabs now today => (fireWaterBreakExpiry s t tabs now today).1
  | Event.blurReported senderTabId isBlurred => handleReportBlurState s senderTabId isBlurred

/-- Run the controller over a sequence of events. -/
def bgRun (s : BgState) (es : List Event) : BgState :=
  es.foldl bgStep s

/-! ### Concrete fixtures used for explicit-input theorems -/

def ytHost : String := "youtube.com"

def wwwYtHost : String := "www.youtube.com"

def exHost : String := "example.com"

/-- A concrete loaded configuration matching `setDefaultConfig`. -/
def cfgYT : Config :=
  { blurrableSites := [ytHost], timeoutSeconds := 30,
    blurIntensity := defaultIntensity, checkIntervalMs := 1000 }

def tab1 : TabInfo := { id := 1, url := some (Address.valid ytHost), active := true }

def tab2 : TabInfo := { id := 2, url := some (Address.valid wwwYtHost), active := true }

def tab2ex : TabInfo := { id := 2, url := some (Address.valid exHost), active := true }

/-- User focuses tracked tab 1, then focuses tracked tab 2. -/
def twoActivations : List Event :=
  [Event.tabActivated tab1 0 0, Event.tabActivated tab2 1000 0]

/-- As `twoActivations`, then tab 2 navigates to an untracked site. -/
def activateThenNavigate : List Event :=
  twoActivations ++ [Event.tabUpdated tab2ex true false 2000 0]

/-- Override requested at t=0, requested again at t=3000. -/
def twoWaterBreaks : List Event :=
  [Event.waterBreakRequested 0 [], Event.waterBreakRequested 3000 []]

/-- As `twoWaterBreaks`, then the first request's 5-second expiry timeout
fires at t=5000. -/
def twoWaterBreaksThenExpiry : List Event :=
  twoWaterBreaks ++ [Event.waterBreakExpiry 5000 [] 5000 0]

/-! ### Helper lemmas about the association-list operations -/

theorem mapLookup_insert_self [DecidableEq α] (m : List (α × β)) (k : α) (v : β) :
    mapLookup (mapInsert m k v) k = some v := by
  induction m with
  | nil => simp [mapInsert, mapLookup]
  | cons p rest ih =>
    obtain ⟨a, b⟩ := p
    by_cases h : a = k
    · simp [mapInsert, h, mapLookup]
    · simp [mapInsert, h, mapLookup, ih]

theorem mapInsert_insert_self [DecidableEq α] (m : List (α × β)) (k : α) (v w : β) :
    mapInsert (mapInsert m k v) k w = mapInsert m k w := by
  induction m with
  | nil => simp [mapInsert]
  | cons p rest ih =>
    obtain ⟨a, b⟩ := p
    by_cases h : a = k
    · simp [mapInsert, h]
    · simp [mapInsert, h, ih]

theorem mapLookup_erase_self [DecidableEq α] (m : List (α × β)) (k : α) :
    mapLookup (mapErase m k) k = none := by
  induction m with
  | nil => simp [mapErase, mapLookup]
  | cons p rest ih =>
    obtain ⟨a, b⟩ := p
    by_cases h : a = k
    · simpa [mapErase, h] using ih
    · simpa [mapErase, mapLookup, h] using ih

/-! ### Helper lemmas about the string-inclusion and hostname-splitting
embeddings -/

theorem isPrefixOf_iff_append (l1 l2 : List Char) :
    l1.isPrefixOf l2 = true ↔ ∃ t, l2 = l1 ++ t := by
  induction l1 generalizing l2 with
  | nil => simp [List.isPrefixOf]
  | cons a as ih =>
    cases l2 with
    | nil => simp [List.isPrefixOf]
    | cons b bs =>
      show (a == b && as.isPrefixOf bs) = true ↔ _
      rw [Bool.and_eq_true, beq_iff_eq, ih]
      constructor
      · rintro ⟨rfl, t, rfl⟩
        exact ⟨t, rfl⟩
      · rintro ⟨t, ht⟩
        rw [List.cons_append] at ht
        obtain ⟨h1, h2⟩ := List.cons.injEq .. ▸ ht
        exact ⟨h1.symm, t, h2⟩

/-- `strContains s pat` holds exactly when `pat` is a contiguous substring
of `s`. -/
theorem strContains_iff (s pat : String) :
    strContains s pat = true ↔ ∃ l r : List Char, s.data = l ++ pat.data ++ r := by
  unfold strContains
  rw [List.any_eq_true]
  constructor
  · rintro ⟨i, _, hp⟩
    rw [isPrefixOf_iff_append] at hp
    obtain ⟨t, ht⟩ := hp
    refine ⟨s.data.take i, t, ?_⟩
    rw [List.append_assoc, ← ht]
    exact (List.take_append_drop i s.data).symm
  · rintro ⟨l, r, hs⟩
    refine ⟨l.length, ?_, ?_⟩
    · rw [List.mem_range]
      have h : s.data.length = l.length + pat.data.length + r.length := by
        rw [hs]; simp; omega
      omega
    · rw [isPrefixOf_iff_append]
      refine ⟨r, ?_⟩
      rw [hs, List.append_assoc, List.drop_left]

theorem splitOnDot_ne_nil (cs : List Char) : splitOnDot cs ≠ [] := by
  cases cs with
  | nil => simp [splitOnDot]
  | cons c rest =>
    unfold splitOnDot
    by_cases h : c = '.'
    · simp [h]
    · simp only [h, if_false]
      cases splitOnDot rest <;> simp

/-- Joining the split groups with dots recovers the hostname: the split is
a genuine decomposition into dot-separated labels. -/
theorem joinDots_splitOnDot (cs : List Char) : joinDots (splitOnDot cs) = cs := by
  induction cs with
  | nil => rfl
  | cons c rest ih =>
    unfold splitOnDot
    by_cases h : c = '.'
    · subst h
      simp only [if_pos rfl]
      cases hsr : splitOnDot rest with
      | nil => exact absurd hsr (splitOnDot_ne_nil rest)
      | cons g gs =>
        show joinDots ([] :: g :: gs) = '.' :: rest
        rw [joinDots, List.nil_append, ← hsr, ih]
    · simp only [h, if_false]
      cases hsr : splitOnDot rest with
      | nil => exact absurd hsr (splitOnDot_ne_nil rest)
      | cons g gs =>
        cases gs with
        | nil =>
          show joinDots [c :: g] = c :: rest
          rw [joinDots]
          rw [hsr] at ih
          rw [joinDots] at ih
          rw [ih]
        | cons g' gs' =>
          show joinDots ((c :: g) :: g' :: gs') = c :: rest
          rw [joinDots, List.cons_append]
          rw [hsr] at ih
          rw [joinDots] at ih
          rw [ih]

/-- No split group contains a dot: the groups really are the labels. -/
theorem splitOnDot_no_dot (cs : List Char) : ∀ g ∈ splitOnDot cs, '.' ∉ g := by
  induction cs with
  | nil =>
    intro g hg
    simp [splitOnDot] at hg
    simp [hg]
  | cons c rest ih =>
    intro g hg
    unfold splitOnDot at hg
    by_cases h : c = '.'
    · simp only [h, if_pos rfl] at hg
      rcases List.mem_cons.mp hg with rfl | hg'
      · simp
      · exact ih g hg'
    · simp only [h, if_false] at hg
      cases hsr : splitOnDot rest with
      | nil => exact absurd hsr (splitOnDot_ne_nil rest)
      | cons g0 gs0 =>
        rw [hsr] at hg
        rcases List.mem_cons.mp hg with rfl | hg'
        · intro hmem
          rcases List.mem_cons.mp hmem with hc | hg0
          · exact h hc.symm
          · exact ih g0 (hsr ▸ List.mem_cons_self g0 gs0) hg0
        · exact ih g (hsr ▸ List.mem_cons_of_mem g0 hg')

/-! ### Projection lemmas: which state fields each handler leaves alone -/

theorem stopHeartbeat_siteTimeTrackers (s : BgState) :
    (stopHeartbeat s).siteTimeTrackers = s.siteTimeTrackers := by
  unfold stopHeartbeat; split <;> rfl

theorem stopHeartbeat_tabBlurStates (s : BgState) :
    (stopHeartbeat s).tabBlurStates = s.tabBlurStates := by
  unfold stopHeartbeat; split <;> rfl

theorem startHeartbeat_tabBlurStates (s : BgState) :
    (startHeartbeat s).tabBlurStates = s.tabBlurStates := by
  unfold startHeartbeat; split <;> rfl

theorem endActiveSession_tabBlurStates (s : BgState) (tabId now today : Nat) :
    (endActiveSession s tabId now today).tabBlurStates = s.tabBlurStates := by
  unfold endActiveSession
  split
  · rfl
  · rw [stopHeartbeat_tabBlurStates]

theorem startNewSession_tabBlurStates (s : BgState) (tabId : Nat)
    (siteKey : Option String) (now today : Nat) :
    (startNewSession s tabId siteKey now today).tabBlurStates = s.tabBlurStates := by
  unfold startNewSession
  dsimp only
  split
  · rw [startHeartbeat_tabBlurStates]
  · rfl

theorem handleTabChange_tabBlurStates (s : BgState) (tab : TabInfo) (now today : Nat) :
    (handleTabChange s tab now today).tabBlurStates = s.tabBlurStates := by
  unfold handleTabChange
  dsimp only
  split
  · rw [startNewSession_tabBlurStates]
    split
    · split
      · rw [endActiveSession_tabBlurStates]
      · rfl
    · rfl
  · split
    · split
      · rw [endActiveSession_tabBlurStates]
      · rfl
    · rfl

/-! ### Claim theorems -/

/-- Claim C1 (code bug): the claim says at most one `Session` ever exists
and that activating a new tab ends the previous tab's session.  The code
violates this: `handleTabActivated` overwrites `this.activeTabId` with the
new tab id before `handleTabChange` reads it, so `handleTabChange` looks
for a session on the *new* tab and the previous tab's session is never
ended.  After focusing tracked tab 1 and then tracked tab 2, both sessions
are in the session map, and tab 1's session was never folded. -/
theorem c1_two_sessions_after_two_activations :
    (bgRun (initState (some cfgYT)) twoActivations).activeSessions.length = 2 ∧
    mapLookup (bgRun (initState (some cfgYT)) twoActivations).activeSessions 1 =
      some { siteKey := ytHost, startTime := 0 } ∧
    mapLookup (bgRun (initState (some cfgYT)) twoActivations).activeSessions 2 =
      some { siteKey := ytHost, startTime := 1000 } ∧
    mapLookup (bgRun (initState (some cfgYT)) twoActivations).siteTimeTrackers ytHost =
      some { totalElapsedTime := 0, lastResetDate := 0 } := by
  decide

/-- Claim C2: the blur verdict for a site key: `shouldBlur` is false
unconditionally while the override window is active, and otherwise equals
`elapsedMillis ≥ timeoutMillis`, with the threshold edge exactly at the
timeout. -/
theorem c2_blur_verdict (s : BgState) (k : String) (now today : Nat) :
    ∃ ti : TimeInfo, (getTimeInfoForSite s (some k) now today).1 = some ti ∧
      (isWaterBreakActive s now = true → ti.shouldBeBlurred = false) ∧
      (isWaterBreakActive s now = false →
        ((ti.shouldBeBlurred = true ↔ ti.timeoutMs ≤ ti.totalTime) ∧
         (ti.totalTime = ti.timeoutMs → ti.shouldBeBlurred = true) ∧
         (ti.totalTime + 1 = ti.timeoutMs → ti.shouldBeBlurred = false))) := by
  refine ⟨_, rfl, ?_, ?_⟩
  · intro h
    dsimp only
    simp [h]
  · intro h
    dsimp only
    simp only [h, Bool.not_false, Bool.and_true]
    refine ⟨by simp, ?_, ?_⟩
    · intro he
      simp only [decide_eq_true_eq]
      omega
    · intro he
      simp only [decide_eq_false_iff_not]
      omega

/-- Witness for C2 at a concrete state: with an active override at `now=0`
the verdict is false even though the accumulated time (50000 ms) exceeds
the 30000 ms budget; with no override, 30000 ms accumulated yields `true`
and 29999 ms yields `false`. -/
theorem c2_blur_verdict_witness :
    (∃ ti : TimeInfo,
      (getTimeInfoForSite
        { initState (some cfgYT) with
            siteTimeTrackers := [(ytHost, { totalElapsedTime := 50000, lastResetDate := 0 })],
            waterBreakEndTime := some 10 }
        (some ytHost) 0 0).1 = some ti ∧ ti.shouldBeBlurred = false) ∧
    (∃ ti : TimeInfo,
      (getTimeInfoForSite
        { initState (some cfgYT) with
            siteTimeTrackers := [(ytHost, { totalElapsedTime := 30000, lastResetDate := 0 })] }
        (some ytHost) 0 0).1 = some ti ∧ ti.totalTime = 30000 ∧ ti.shouldBeBlurred = true) ∧
    (∃ ti : TimeInfo,
      (getTimeInfoForSite
        { initState (some cfgYT) with
            siteTimeTrackers := [(ytHost, { totalElapsedTime := 29999, lastResetDate := 0 })] }
        (some ytHost) 0 0).1 = some ti ∧ ti.totalTime = 29999 ∧ ti.shouldBeBlurred = false) := by
  refine ⟨?_, ?_, ?_⟩
  · obtain ⟨ti, h1, h2, _⟩ := c2_blur_verdict
      { initState (some cfgYT) with
          siteTimeTrackers := [(ytHost, { totalElapsedTime := 50000, lastResetDate := 0 })],
          waterBreakEndTime := some 10 } ytHost 0 0
    exact ⟨ti, h1, h2 (by decide)⟩
  · obtain ⟨ti, h1, _, h3⟩ := c2_blur_verdict
      { initState (some cfgYT) with
          siteTimeTrackers := [(ytHost, { totalElapsedTime := 30000, lastResetDate := 0 })] }
      ytHost 0 0
    have ht : ti.totalTime = 30000 ∧ ti.timeoutMs = 30000 := by
      have : ti = { totalTime := 30000, timeoutMs := 30000, shouldBeBlurred := true,
                    dailyTime := 30000 } := by
        have := h1
        rw [show (getTimeInfoForSite
            { initState (some cfgYT) with
                siteTimeTrackers := [(ytHost, { totalElapsedTime := 30000, lastResetDate := 0 })] }
            (some ytHost) 0 0).1 =
            some { totalTime := 30000, timeoutMs := 30000, shouldBeBlurred := true,
                   dailyTime := 30000 } from by decide] at this
        exact (Option.some.injEq .. ▸ this).symm
      rw [this]
      exact ⟨rfl, rfl⟩
    refine ⟨ti, h1, ht.1, ?_⟩
    exact (h3 (by decide)).2.1 (ht.1.trans ht.2.symm)
  · obtain ⟨ti, h1, _, h3⟩ := c2_blur_verdict
      { initState (some cfgYT) with
          siteTimeTrackers := [(ytHost, { totalElapsedTime := 29999, lastResetDate := 0 })] }
      ytHost 0 0
    have ht : ti.totalTime = 29999 ∧ ti.timeoutMs = 30000 := by
      have : ti = { totalTime := 29999, timeoutMs := 30000, shouldBeBlurred := false,
                    dailyTime := 29999 } := by
        have := h1
        rw [show (getTimeInfoForSite
            { initState (some cfgYT) with
                siteTimeTrackers := [(ytHost, { totalElapsedTime := 29999, lastResetDate := 0 })] }
            (some ytHost) 0 0).1 =
            some { totalTime := 29999, timeoutMs := 30000, shouldBeBlurred := false,
                   dailyTime := 29999 } from by decide] at this
        exact (Option.some.injEq .. ▸ this).symm
      rw [this]
      exact ⟨rfl, rfl⟩
    refine ⟨ti, h1, ht.1, ?_⟩
    exact (h3 (by decide)).2.2 (by omega)

/-- Claim C4 (code bug): the claim says a second activation during an
active override replaces the window and the override stays active until
`t' + d`.  The code does set `waterBreakEndTime = t' + 5000`, but the
*first* activation's expiry `setTimeout` still fires at `t + 5000` and
unconditionally sets `waterBreakEndTime = null`, ending the override
early: after activations at `t = 0` and `t' = 3000`, the override is
active at `now = 6000` before the stale timer fires, and inactive at
`now = 6000` after it fires at 5000, although `6000 < 8000 = t' + d`. -/
theorem c4_override_cut_short_by_stale_timer :
    (bgRun (initState (some cfgYT)) twoWaterBreaks).waterBreakEndTime = some 8000 ∧
    isWaterBreakActive (bgRun (initState (some cfgYT)) twoWaterBreaks) 6000 = true ∧
    (bgRun (initState (some cfgYT)) twoWaterBreaksThenExpiry).waterBreakEndTime = none ∧
    isWaterBreakActive (bgRun (initState (some cfgYT)) twoWaterBreaksThenExpiry) 6000 = false := by
  decide

/-- Claim C7 (code bug): the claim says the heartbeat runs iff a tracked
session is active.  Because `handleTabActivated` never ends the previous
tab's session (see C1), two sessions can coexist; navigating the second
tab away then ends *its* session and stops the heartbeat while tab 1's
session is still in the map: a tracked session exists with no heartbeat
timer running. -/
theorem c7_session_without_heartbeat :
    (bgRun (initState (some cfgYT)) activateThenNavigate).activeSessions.length = 1 ∧
    mapLookup (bgRun (initState (some cfgYT)) activateThenNavigate).activeSessions 1 =
      some { siteKey := ytHost, startTime := 0 } ∧
    (bgRun (initState (some cfgYT)) activateThenNavigate).checkInterval = none ∧
    (bgRun (initState (some cfgYT)) activateThenNavigate).liveTimers = [] := by
  decide

/-- A second `getSiteTimeTracker` call on the same day finds the freshly
written entry and leaves everything unchanged. -/
theorem getSiteTimeTracker_stable (m : List (String × SiteTimeTracker)) (k : String)
    (today : Nat) (t : SiteTimeTracker) (ht : t.lastResetDate = today) :
    getSiteTimeTracker (mapInsert m k t) (some k) today = (some t, mapInsert m k t) := by
  unfold getSiteTimeTracker
  dsimp only
  rw [mapLookup_insert_self]
  simp [ht, mapInsert_insert_self]

/-- Claim C3: a budget entry is created lazily at 0 on first get; every get
(`getSiteTimeTracker`) and every add (`endActiveSession`) first applies the
daily-reset check; the check is idempotent within a day. -/
theorem c3_daily_reset (m : List (String × SiteTimeTracker)) (k : String)
    (s : BgState) (tabId : Nat) (info : SessionInfo) (now today : Nat)
    (hsess : mapLookup s.activeSessions tabId = some info) :
    (∃ t : SiteTimeTracker,
      getSiteTimeTracker m (some k) today = (some t, mapInsert m k t) ∧
      t.lastResetDate = today ∧
      (mapLookup m k = none → t = { totalElapsedTime := 0, lastResetDate := today }) ∧
      (∀ t0, mapLookup m k = some t0 →
        t = if t0.lastResetDate ≠ today
            then { totalElapsedTime := 0, lastResetDate := today } else t0) ∧
      getSiteTimeTracker (mapInsert m k t) (some k) today = (some t, mapInsert m k t)) ∧
    mapLookup (endActiveSession s tabId now today).siteTimeTrackers info.siteKey =
      some { totalElapsedTime :=
               (match mapLookup s.siteTimeTrackers info.siteKey with
                | some t0 => if t0.lastResetDate = today then t0.totalElapsedTime else 0
                | none => 0) + (now - info.startTime)
             lastResetDate := today } := by
  constructor
  · refine ⟨_, rfl, ?_, ?_, ?_, ?_⟩
    · dsimp only
      split
      · rfl
      · next hne => exact not_not.mp hne
    · intro hm
      simp [hm]
    · intro t0 hm
      simp only [hm]
    · refine getSiteTimeTracker_stable m k today _ ?_
      dsimp only
      split
      · rfl
      · next hne => exact not_not.mp hne
  · unfold endActiveSession
    rw [hsess]
    dsimp only
    rw [stopHeartbeat_siteTimeTrackers]
    dsimp only [getSiteTimeTracker]
    cases hm : mapLookup s.siteTimeTrackers info.siteKey with
    | none =>
      simp [hm, mapInsert_insert_self, mapLookup_insert_self]
    | some t0 =>
      by_cases hday : t0.lastResetDate = today
      · simp [hm, hday, mapInsert_insert_self, mapLookup_insert_self]
      · simp [hm, hday, mapInsert_insert_self, mapLookup_insert_self]

/-- A concrete state holding a session for tab 5 on the tracked site and a
stale tracker from yesterday (day 0) with 7 ms accumulated. -/
def c3State : BgState :=
  { initState (some cfgYT) with
      activeSessions := [(5, { siteKey := ytHost, startTime := 100 })]
      siteTimeTrackers := [(ytHost, { totalElapsedTime := 7, lastResetDate := 0 })] }

/-- Witness for C3: ending tab 5's session on day 1 first zeroes the stale
day-0 total (7 ms is dropped) and then folds in the session's 500 ms. -/
theorem c3_daily_reset_witness :
    mapLookup (endActiveSession c3State 5 600 1).siteTimeTrackers ytHost =
      some { totalElapsedTime := 500, lastResetDate := 1 } := by
  have h := (c3_daily_reset [] ytHost c3State 5 { siteKey := ytHost, startTime := 100 }
    600 1 (by decide)).2
  exact h

/-- After a successfully delivered verdict dispatch the blur cache for the
tab equals the verdict (either it already matched and nothing was sent, or
the sent command's effect was recorded). -/
theorem dispatchVerdict_cache (s : BgState) (tabId : Nat) (k : String) (v : Bool) :
    isTabBlurred (dispatchVerdict s tabId k v SendOutcome.ok).1 tabId = v := by
  cases v <;>
    by_cases h : isTabBlurred s tabId <;>
      simp_all [dispatchVerdict, handleShouldNotBeBlurred, handleShouldBeBlurred,
        sendMessageToTab, updateBlurState, isTabBlurred, mapLookup_insert_self]

/-- A successfully dispatched verdict delivers one command exactly when the
cached blur state differs from the verdict, and nothing otherwise. -/
theorem dispatchVerdict_len (s : BgState) (tabId : Nat) (k : String) (v : Bool) :
    (dispatchVerdict s tabId k v SendOutcome.ok).2.length
      = if isTabBlurred s tabId = v then 0 else 1 := by
  cases v
  · unfold dispatchVerdict handleShouldNotBeBlurred
    by_cases h : isTabBlurred s tabId
    · simp [h, sendMessageToTab]
    · simp [h]
  · unfold dispatchVerdict handleShouldBeBlurred
    by_cases h : isTabBlurred s tabId
    · simp [h]
    · simp [h, sendMessageToTab]

/-- A tab update with `changeInfo.url` set clears the tab's blur-state
cache entry, and nothing later in the handler touches the cache. -/
theorem handleTabUpdated_clears_cache (s : BgState) (tab : TabInfo) (sc : Bool)
    (now today : Nat) :
    (handleTabUpdated s tab true sc now today).tabBlurStates
      = mapErase s.tabBlurStates tab.id := by
  unfold handleTabUpdated
  simp only [Bool.true_or, if_true]
  dsimp only
  split
  · split
    · rw [handleTabChange_tabBlurStates, endActiveSession_tabBlurStates]
    · rw [endActiveSession_tabBlurStates]
  · split
    · rw [handleTabChange_tabBlurStates]
    · rfl

/-- Claim C5 as stated is false: two consecutive identical verdicts need
not produce exactly one delivered command.  From the fresh state (no cache
entry for tab 7, which the cache comparison treats as unblurred), two
consecutive `shouldBlur = false` verdicts deliver zero commands, not one. -/
theorem c5_counterexample :
    ¬ ((dispatchVerdict (initState (some cfgYT)) 7 ytHost false SendOutcome.ok).2.length +
       (dispatchVerdict
          (dispatchVerdict (initState (some cfgYT)) 7 ytHost false SendOutcome.ok).1
          7 ytHost false SendOutcome.ok).2.length = 1) := by
  decide

/-- Claim C5, amended: delivery is skipped when the desired state equals
the cached state (a missing cache entry counting as unblurred), so two
consecutive identical verdicts deliver at most one command — exactly one
when the first verdict differs from the cached state, zero when it already
matches — the second of two identical verdicts never delivers, a verdict
flip after a delivered-or-suppressed verdict delivers exactly one new
command, and after a tab navigation (which clears the cache entry) the
first blur verdict is delivered even when the page was cached as
blurred. -/
theorem c5_suppression_amended (s : BgState) (tabId : Nat) (k : String) (v : Bool)
    (url : Option Address) (active sc : Bool) (now today : Nat) :
    (dispatchVerdict s tabId k v SendOutcome.ok).2.length
        = (if isTabBlurred s tabId = v then 0 else 1) ∧
    (dispatchVerdict (dispatchVerdict s tabId k v SendOutcome.ok).1 tabId k v
        SendOutcome.ok).2 = [] ∧
    (dispatchVerdict (dispatchVerdict s tabId k v SendOutcome.ok).1 tabId k (!v)
        SendOutcome.ok).2.length = 1 ∧
    (dispatchVerdict
        (handleTabUpdated s { id := tabId, url := url, active := active } true sc now today)
        tabId k true SendOutcome.ok).2.length = 1 := by
  refine ⟨dispatchVerdict_len s tabId k v, ?_, ?_, ?_⟩
  · have hlen := dispatchVerdict_len (dispatchVerdict s tabId k v SendOutcome.ok).1 tabId k v
    rw [dispatchVerdict_cache s tabId k v, if_pos rfl] at hlen
    exact List.length_eq_zero.mp hlen
  · have hlen := dispatchVerdict_len (dispatchVerdict s tabId k v SendOutcome.ok).1 tabId k (!v)
    rw [dispatchVerdict_cache s tabId k v] at hlen
    cases v <;> simpa using hlen
  · have hlen := dispatchVerdict_len
      (handleTabUpdated s { id := tabId, url := url, active := active } true sc now today)
      tabId k true
    have hcache : isTabBlurred
        (handleTabUpdated s { id := tabId, url := url, active := active } true sc now today)
        tabId = false := by
      unfold isTabBlurred
      rw [handleTabUpdated_clears_cache]
      simp [mapLookup_erase_self]
    rw [hcache] at hlen
    simpa using hlen

/-- Claim C6: a send failure whose error message contains the
no-receiver fragment appends the command to the tab's pending queue
(preserving earlier entries and their order); any other failure changes
nothing; on the renderer's connect event the queued commands are delivered
in original enqueue order and the queue is cleared, so a second drain
delivers nothing. -/
theorem c6_queue_and_replay (s : BgState) (tabId : Nat) (m : TabMessage) (e : String) :
    (strContains e receivingEndMsg = true →
      mapLookup (handleSendMessageError s e tabId m).messageQueue tabId =
        some (((mapLookup s.messageQueue tabId).getD []) ++ [m])) ∧
    (strContains e receivingEndMsg = false →
      handleSendMessageError s e tabId m = s) ∧
    (processQueuedMessages s tabId).2 = (mapLookup s.messageQueue tabId).getD [] ∧
    (processQueuedMessages (processQueuedMessages s tabId).1 tabId).2 = [] := by
  refine ⟨?_, ?_, ?_, ?_⟩
  · intro h
    unfold handleSendMessageError
    rw [if_pos h]
    dsimp only
    rw [mapLookup_insert_self]
    cases hq : mapLookup s.messageQueue tabId <;> simp
  · intro h
    unfold handleSendMessageError
    rw [if_neg (by simp [h])]
  · unfold processQueuedMessages
    cases hq : mapLookup s.messageQueue tabId with
    | none => simp
    | some q =>
      dsimp only
      split
      · simp
      · next hlen =>
        have : q = [] := by
          cases q
          · rfl
          · exact absurd (by simp) hlen
        simp [this]
  · cases hq : mapLookup s.messageQueue tabId with
    | none => simp [processQueuedMessages, hq]
    | some q =>
      cases q with
      | nil => simp [processQueuedMessages, hq]
      | cons m0 ms =>
        simp [processQueuedMessages, hq, mapLookup_erase_self]

/-- A state whose pending queue for tab 3 already holds one command. -/
def qState : BgState :=
  { initState (some cfgYT) with messageQueue := [(3, [TabMessage.removeBlur])] }

/-- A rejection whose message contains the no-receiver fragment. -/
def errNoReceiver : String :=
  "Could not establish connection. Receiving end does not exist."

/-- A rejection of any other kind. -/
def errOther : String :=
  "The message port closed before a response was received."

/-- Witness for C6 at concrete inputs: the no-receiver error appends to tab
3's queue behind the earlier command; the other error leaves the state
unchanged; connect drains `[removeBlur]` once and a second drain delivers
nothing. -/
theorem c6_queue_and_replay_witness :
    mapLookup (handleSendMessageError qState errNoReceiver 3
        (TabMessage.applyBlur defaultIntensity ytHost)).messageQueue 3 =
      some [TabMessage.removeBlur, TabMessage.applyBlur defaultIntensity ytHost] ∧
    handleSendMessageError qState errOther 3 TabMessage.removeBlur = qState ∧
    (processQueuedMessages qState 3).2 = [TabMessage.removeBlur] ∧
    (processQueuedMessages (processQueuedMessages qState 3).1 3).2 = [] := by
  obtain ⟨h1, _, h3, h4⟩ := c6_queue_and_replay qState 3
    (TabMessage.applyBlur defaultIntensity ytHost) errNoReceiver
  obtain ⟨_, h2, _, _⟩ := c6_queue_and_replay qState 3 TabMessage.removeBlur errOther
  exact ⟨h1 (by decide), h2 (by decide), h3, h4⟩

/-- Claim C8: the verdict never derives from the renderer's self-report.
`handleReportBlurState` can change only the blur cache `tabBlurStates`
(every other field is untouched), and `getTimeInfoForSite` — hence
`totalTime`, `timeoutMs` and `shouldBeBlurred` for every site key — is
identical on any two states that differ only in `tabBlurStates`. -/
theorem c8_verdict_ignores_reports (s s1 s2 : BgState) (senderTabId : Option Nat) (b : Bool)
    (k : String) (now today : Nat)
    (hc : s1.config = s2.config)
    (ht : s1.siteTimeTrackers = s2.siteTimeTrackers)
    (hs : s1.activeSessions = s2.activeSessions)
    (ha : s1.activeTabId = s2.activeTabId)
    (hw : s1.waterBreakEndTime = s2.waterBreakEndTime) :
    ((handleReportBlurState s senderTabId b).config = s.config ∧
     (handleReportBlurState s senderTabId b).siteTimeTrackers = s.siteTimeTrackers ∧
     (handleReportBlurState s senderTabId b).activeSessions = s.activeSessions ∧
     (handleReportBlurState s senderTabId b).activeTabId = s.activeTabId ∧
     (handleReportBlurState s senderTabId b).messageQueue = s.messageQueue ∧
     (handleReportBlurState s senderTabId b).waterBreakEndTime = s.waterBreakEndTime ∧
     (handleReportBlurState s senderTabId b).waterBreakTimers = s.waterBreakTimers ∧
     (handleReportBlurState s senderTabId b).checkInterval = s.checkInterval) ∧
    (getTimeInfoForSite s1 (some k) now today).1 = (getTimeInfoForSite s2 (some k) now today).1 := by
  constructor
  · unfold handleReportBlurState
    cases senderTabId <;> simp
  · unfold getTimeInfoForSite getSiteTimeTracker getTimeoutMs isWaterBreakActive
    rw [hc, ht, hs, ha, hw]

/-- A concrete state with accumulated time past the budget. -/
def s8a : BgState :=
  { initState (some cfgYT) with
      siteTimeTrackers := [(ytHost, { totalElapsedTime := 40000, lastResetDate := 0 })] }

/-- The same state after a renderer self-reported "I am blurred" for tab 1:
only the blur cache differs. -/
def s8b : BgState := { s8a with tabBlurStates := [(1, true)] }

/-- Witness for C8 at concrete states: the self-report touches nothing but
the cache, and the verdict data for the tracked site is identical with and
without the report. -/
theorem c8_verdict_ignores_reports_witness :
    (getTimeInfoForSite s8a (some ytHost) 0 0).1 =
      (getTimeInfoForSite s8b (some ytHost) 0 0).1 ∧
    (handleReportBlurState s8a (some 1) true).siteTimeTrackers = s8a.siteTimeTrackers := by
  have h := c8_verdict_ignores_reports s8a s8a s8b (some 1) true ytHost 0 0
    rfl rfl rfl rfl rfl
  exact ⟨h.2, h.1.2.1⟩

/-- Claim C9: address resolution and tracking.  A missing or unparseable
address resolves to `null` and is not tracked; the resolved site key is the
last two dot-separated labels joined by a dot when there are at least two,
otherwise the full hostname (`splitOnDot`/`joinDots` genuinely decompose
the hostname at dots); and a site key is tracked iff it contains, or is
contained in, some configured tracked-site string, where `strContains` is
exactly contiguous-substring occurrence. -/
theorem c9_sitekey_resolution (hn k : String) (cfg : Config) (a b : String)
    (hk : getSiteKey (some (Address.valid hn)) = some k) :
    getSiteKey none = none ∧
    getSiteKey (some Address.invalid) = none ∧
    isTargetSite (some cfg) none = false ∧
    isTargetSite (some cfg) (some Address.invalid) = false ∧
    k = (if 2 ≤ (splitOnDot hn.data).length
         then String.mk (joinDots ((splitOnDot hn.data).drop ((splitOnDot hn.data).length - 2)))
         else hn) ∧
    joinDots (splitOnDot hn.data) = hn.data ∧
    (∀ g ∈ splitOnDot hn.data, '.' ∉ g) ∧
    (isTargetSite (some cfg) (some (Address.valid hn)) = true ↔
      ∃ site ∈ cfg.blurrableSites,
        (strContains k site = true ∨ strContains site k = true)) ∧
    (strContains a b = true ↔ ∃ l r : List Char, a.data = l ++ b.data ++ r) := by
  refine ⟨rfl, rfl, rfl, rfl, ?_, joinDots_splitOnDot hn.data, splitOnDot_no_dot hn.data,
    ?_, strContains_iff a b⟩
  · by_cases hcond : 2 ≤ (splitOnDot hn.data).length
    · rw [if_pos hcond]
      have h2 := hk
      simp only [getSiteKey, if_pos hcond, Option.some.injEq] at h2
      exact h2.symm
    · rw [if_neg hcond]
      have h2 := hk
      simp only [getSiteKey, if_neg hcond, Option.some.injEq] at h2
      exact h2.symm
  · unfold isTargetSite
    dsimp only
    rw [hk]
    simp [List.any_eq_true]

/-- Witness for C9: `www.youtube.com` resolves to the two-label key
`youtube.com`, which is tracked under the configured list
`["youtube.com"]`. -/
theorem c9_sitekey_resolution_witness :
    getSiteKey (some (Address.valid wwwYtHost)) = some ytHost ∧
    isTargetSite (some cfgYT) (some (Address.valid wwwYtHost)) = true := by
  have h := c9_sitekey_resolution wwwYtHost ytHost cfgYT wwwYtHost ytHost (by decide)
  refine ⟨by decide, ?_⟩
  exact (h.2.2.2.2.2.2.2.1).mpr ⟨ytHost, by decide, Or.inl (by decide)⟩

/-- Claim C10: a `getTimeStatus` query whose sender has no tab, whose tab
has no url, or whose url does not resolve to a site key is still answered
(the handler is a total function producing exactly one response), with the
safe defaults `totalTime = 0`, `shouldBeBlurred = false`, `siteKey = null`
and the configured timeout. -/
theorem c10_default_response (s : BgState) (senderTab : Option (Option Address))
    (now today : Nat)
    (h : senderTab = none ∨ senderTab = some none ∨
         ∃ a, senderTab = some (some a) ∧ getSiteKey (some a) = none) :
    (handleGetTimeStatus s senderTab now today).1.totalTime = 0 ∧
    (handleGetTimeStatus s senderTab now today).1.shouldBeBlurred = false ∧
    (handleGetTimeStatus s senderTab now today).1.siteKey = none ∧
    (handleGetTimeStatus s senderTab now today).1.timeoutMs = getTimeoutMs s.config := by
  rcases h with rfl | rfl | ⟨a, rfl, hk⟩
  · exact ⟨rfl, rfl, rfl, rfl⟩
  · exact ⟨rfl, rfl, rfl, rfl⟩
  · unfold handleGetTimeStatus
    dsimp only
    rw [hk]
    exact ⟨rfl, rfl, rfl, rfl⟩

/-- Witness for C10: a sender tab whose url fails to parse gets the default
response with the configured 30000 ms timeout. -/
theorem c10_default_response_witness :
    (handleGetTimeStatus (initState (some cfgYT)) (some (some Address.invalid)) 0 0).1.totalTime = 0 ∧
    (handleGetTimeStatus (initState (some cfgYT)) (some (some Address.invalid)) 0 0).1.shouldBeBlurred = false ∧
    (handleGetTimeStatus (initState (some cfgYT)) (some (some Address.invalid)) 0 0).1.siteKey = none ∧
    (handleGetTimeStatus (initState (some cfgYT)) (some (some Address.invalid)) 0 0).1.timeoutMs = 30000 := by
  exact c10_default_response (initState (some cfgYT)) (some (some Address.invalid)) 0 0
    (Or.inr (Or.inr ⟨Address.invalid, rfl, by decide⟩))

end FocusBlocker
